import Mathlib

/-!
SIMCII dashboard front end: alert feed, device registry, chart window, device form,
dashboard statistics

A shallow embedding of the browser scripts under `go-gateway/templates/js`
(`app.js`, `alerts.js`, `devices.js`, `charts.js`, `utils.js`).

Modelling conventions

* The module objects `App`, `Alerts`, `Devices` and the parts of the document they touch
  are the fields of one record, `Page`.  An element looked up with
  `document.getElementById` is an `Option`: `none` when the document has no such element.
* A function that can throw returns a `Completion`: the page as it is when the function
  returns or throws, and the message of the thrown error.
* The network is an input: every `await fetch(...)` takes the `FetchResult` that the
  awaited promise settles with, and every request issued is appended to `Page.requests`.
* `async` functions are run to completion one at a time (the scripts are single threaded;
  interleavings of two pending calls are not modelled).
* `console.log` / `console.error` output is not part of the page and is left out.
-/

namespace SIMCII

/-! ## JavaScript helpers -/

/-- Normal or abrupt completion of a function body, with the state reached. -/
inductive Completion (σ : Type) where
  | normal (s : σ)
  | thrown (message : String) (s : σ)
deriving DecidableEq, Repr

/-- The state a completion ends in. -/
def Completion.state {σ : Type} : Completion σ → σ
  | .normal s => s
  | .thrown _ s => s

/-- Whether the completion is a throw. -/
def Completion.threw {σ : Type} : Completion σ → Bool
  | .normal _ => false
  | .thrown _ _ => true

/-- Message of the `TypeError` raised by `null.textContent = v` (the text V8 uses; other
engines word it differently). -/
def nullTextContentMessage : String :=
  "Cannot set properties of null (setting 'textContent')"

/-- Interpolation `${e}` of a string-valued expression inside a template literal;
`undefined` is rendered as the text `undefined`. -/
def interpolate : Option String → String
  | some s => s
  | none => "undefined"

/-- The method `String.prototype.includes`. -/
def includes (s sub : String) : Bool :=
  decide (sub.toList <:+: s.toList)

/-- The white space and line terminator characters that `String.prototype.trim` strips. -/
def isWhiteSpace (c : Char) : Bool :=
  c.val = 0x09 || c.val = 0x0A || c.val = 0x0B || c.val = 0x0C || c.val = 0x0D ||
  c.val = 0x20 || c.val = 0xA0 || c.val = 0x1680 ||
  (decide (0x2000 ≤ c.val) && decide (c.val ≤ 0x200A)) ||
  c.val = 0x2028 || c.val = 0x2029 || c.val = 0x202F || c.val = 0x205F ||
  c.val = 0x3000 || c.val = 0xFEFF

/-- The method `String.prototype.trim`. -/
def trim (s : String) : String :=
  String.mk ((s.toList.dropWhile isWhiteSpace).rdropWhile isWhiteSpace)

/-- The property `length` of a string: the number of UTF-16 code units. -/
def jsLength (s : String) : Nat :=
  (s.toList.map (fun c => if c.val < 0x10000 then 1 else 2)).sum

/-- The method `Array.prototype.sort(cmp)`: a stable sort that puts `a` before `b` when
`cmp a b < 0`, `b` before `a` when `cmp a b > 0`, and keeps the order of the array
when `cmp a b = 0`.  Given as insertion from the right, which is stable. -/
def arraySort {α : Type} (cmp : α → α → Int) (l : List α) : List α :=
  l.insertionSort (fun a b => cmp a b ≤ 0)

/-- A response of `fetch`: the status line, what `response.json()` settles with
(`Except.error` when it rejects) and what `response.text()` gives. -/
structure Response (α : Type) where
  status : Nat
  json : Except String α
  text : String

/-- The getter `response.ok`: the status is in the range 200-299. -/
def Response.ok {α : Type} (r : Response α) : Bool :=
  decide (200 ≤ r.status) && decide (r.status ≤ 299)

/-- What the promise returned by `fetch` settles with. -/
inductive FetchResult (α : Type) where
  | rejected (message : String)
  | resolved (r : Response α)

/-! ## Data model -/

/-- An alert record as delivered by the alert API.  `valor` is the text that JavaScript
prints for the number; `nivel_criticidad` is `none` when the record has no such field. -/
structure Alert where
  id : Int
  dispositivo_nombre : String
  tipo_alerta : String
  mensaje : String
  valor : String
  zona : String
  activa : Bool
  fecha_creacion : String
  nivel_criticidad : Option Int
deriving DecidableEq, Repr

/-- A device record as delivered by the device API. -/
structure Device where
  id : Int
  nombre : String
  tipo : String
  ubicacion : String
  activo : Bool
  descripcion : Option String
deriving DecidableEq, Repr

/-- The object `deviceData` built by the form handler and sent as JSON. -/
structure DeviceData where
  nombre : String
  tipo : String
  ubicacion : String
  activo : Bool
  descripcion : Option String
deriving DecidableEq, Repr

/-- An HTTP request issued with `fetch(url, options)`. -/
structure Request where
  method : String
  url : String
  contentType : Option String
  body : Option DeviceData
deriving DecidableEq, Repr

/-- A toast shown by `Utils.showNotification(message, type)`. -/
structure Notification where
  message : String
  type : String
deriving DecidableEq, Repr

/-- The content of one alert card appended to `#alertsList`. -/
structure AlertCard where
  color : String
  icon : String
  dispositivo_nombre : String
  mensaje : String
  zona : String
  fecha : String
  criticidad : String
  valor : String
deriving DecidableEq, Repr

/-- A child of the `#alertsList` element. -/
inductive AlertsNode where
  | message (icon title detail : String)
  | card (c : AlertCard)
deriving DecidableEq, Repr

/-- The content of one device card appended to `#devicesList`. -/
structure DeviceCard where
  icon : String
  nombre : String
  typeName : String
  ubicacion : String
  estado : String
  reading : String
  id : Int
deriving DecidableEq, Repr

/-- A child of the `#devicesList` element. -/
inductive DevicesNode where
  | message (icon title action : String)
  | card (c : DeviceCard)
deriving DecidableEq, Repr

/-- The script state and the part of the document the scripts read and write. -/
structure Page where
  /-- The array `Alerts.alerts`. -/
  alerts : List Alert
  /-- The array `Devices.devices`. -/
  devices : List Device
  /-- The field `App.currentEditingDevice`. -/
  currentEditingDevice : Option Device
  /-- Children of `#alertsList`. -/
  alertsList : Option (List AlertsNode)
  /-- Text of `#totalAlertas`. -/
  totalAlertas : Option String
  /-- Children of `#devicesList`. -/
  devicesList : Option (List DevicesNode)
  /-- Text of `#totalDispositivos`. -/
  totalDispositivos : Option String
  /-- Toasts appended to the document body, oldest first (their removal after five seconds
  is not modelled). -/
  notifications : List Notification
  /-- Requests issued with `fetch`, oldest first. -/
  requests : List Request
  /-- Addresses opened with `window.open(url, target)`, oldest first. -/
  opened : List (String × String)
  /-- Calls of functions that the HTML template defines (`closeDeviceForm`), oldest first. -/
  calls : List String
deriving DecidableEq, Repr

/-- Record a `fetch` without options (a GET). -/
def Page.get (p : Page) (url : String) : Page :=
  { p with requests := p.requests ++ [⟨"GET", url, none, none⟩] }

/-! ## app.js: configuration -/

namespace App

/-- The property `App.JAVA_API_BASE_URL`. -/
def JAVA_API_BASE_URL : String := "http://localhost:8080/api/dispositivos"

/-- The property `App.PYTHON_API_BASE_URL`. -/
def PYTHON_API_BASE_URL : String := "http://localhost:8000/api"

/-- Reading a string-valued configuration property `App.<name>` of the object literal in
`app.js`: it defines `JAVA_API_BASE_URL` and `PYTHON_API_BASE_URL`; any other name of a
configuration property reads as `undefined`. -/
def property (name : String) : Option String :=
  if name = "JAVA_API_BASE_URL" then some JAVA_API_BASE_URL
  else if name = "PYTHON_API_BASE_URL" then some PYTHON_API_BASE_URL
  else none

end App

/-! ## utils.js -/

namespace Utils

/-- The function `Utils.showNotification(message, type)`: a toast is appended to the body. -/
def showNotification (p : Page) (message type : String) : Page :=
  { p with notifications := p.notifications ++ [⟨message, type⟩] }

end Utils

/-! ## alerts.js -/

namespace Alerts

/-- The address requested by `Alerts.fetchAlertsFromAPI`. -/
def alertsUrl : String := interpolate (App.property "API_BASE_URL") ++ "/alertas/activas"

/-- The address opened by `Alerts.exportToCSV`. -/
def csvUrl : String := interpolate (App.property "API_BASE_URL") ++ "/reportes/alertas/csv"

/-- The function `Alerts.getSimulatedAlerts`; `t1` and `t2` are the two readings
`new Date().toISOString()` of the clock, one per record. -/
def getSimulatedAlerts (t1 t2 : String) : List Alert :=
  [ { id := 1, dispositivo_nombre := "Sensor Temp A1", tipo_alerta := "TEMPERATURA_FUERA_RANGO",
      mensaje := "Temperatura crítica: 35.2°C", valor := "35.2", zona := "A", activa := true,
      fecha_creacion := t1, nivel_criticidad := some 2 },
    { id := 2, dispositivo_nombre := "Sensor Hum B2", tipo_alerta := "HUMEDAD_FUERA_RANGO",
      mensaje := "Humedad baja: 25.1%", valor := "25.1", zona := "B", activa := true,
      fecha_creacion := t2, nivel_criticidad := some 1 } ]

/-- The function `Alerts.getAlertColor`. -/
def getAlertColor (nivel : Option Int) : String :=
  if nivel = some 3 then "red"
  else if nivel = some 2 then "orange"
  else if nivel = some 1 then "yellow"
  else "gray"

/-- The function `Alerts.getAlertIcon`. -/
def getAlertIcon (nivel : Option Int) : String :=
  if nivel = some 3 then "🚨"
  else if nivel = some 2 then "⚠️"
  else if nivel = some 1 then "🔔"
  else "📢"

/-- The function `Alerts.getCriticidadText`. -/
def getCriticidadText (nivel : Option Int) : String :=
  if nivel = some 3 then "CRÍTICA"
  else if nivel = some 2 then "ALTA"
  else if nivel = some 1 then "MEDIA"
  else "BAJA"

/-- The function `Alerts.getAlertUnit`. -/
def getAlertUnit (tipoAlerta : String) : String :=
  if includes tipoAlerta "TEMPERATURA" then "°C"
  else if includes tipoAlerta "HUMEDAD" then "%"
  else if includes tipoAlerta "LUZ" then "lux"
  else ""

/-- The expression `nivel_criticidad || 1`: a missing level and the level 0 are falsy. -/
def severity (a : Alert) : Int :=
  match a.nivel_criticidad with
  | none => 1
  | some n => if n = 0 then 1 else n

/-- The comparator handed to `sort` in `renderAlerts`. -/
def compareAlerts (a b : Alert) : Int := severity b - severity a

/-- The card built for one alert inside the `forEach` of `renderAlerts`.  `fecha` is the
time stamp handed to `Alerts.formatDate`, whose rendering is left to the browser locale. -/
def alertCard (a : Alert) : AlertCard :=
  { color := getAlertColor a.nivel_criticidad
    icon := getAlertIcon a.nivel_criticidad
    dispositivo_nombre := a.dispositivo_nombre
    mensaje := a.mensaje
    zona := a.zona
    fecha := a.fecha_creacion
    criticidad := getCriticidadText a.nivel_criticidad
    valor := a.valor ++ getAlertUnit a.tipo_alerta }

/-- The empty-state block written into `#alertsList`. -/
def emptyMessage : AlertsNode :=
  .message "✅" "No hay alertas activas" "Todo funciona correctamente"

/-- The array `activeAlerts.slice(0, 10)` that `renderAlerts` iterates over after the
sort: the alerts whose cards are appended. -/
def shownAlerts (alerts : List Alert) : List Alert :=
  (arraySort compareAlerts (alerts.filter (fun a => a.activa))).take 10

/-- The function `Alerts.renderAlerts`. -/
def renderAlerts (p : Page) : Completion Page :=
  match p.alertsList with
  | none => .normal p
  | some _ =>
    let activeAlerts := p.alerts.filter (fun a => a.activa)
    match p.totalAlertas with
    | none => .thrown nullTextContentMessage p
    | some _ =>
      let p1 := { p with totalAlertas := some (toString activeAlerts.length) }
      if activeAlerts.length = 0 then
        .normal { p1 with alertsList := some [emptyMessage] }
      else
        .normal { p1 with
          alertsList := some ((shownAlerts p.alerts).map
            (fun a => AlertsNode.card (alertCard a))) }

/-- The `catch` block of `Alerts.fetchAlertsFromAPI`. -/
def fetchAlertsFallback (t1 t2 : String) (p : Page) : Completion Page :=
  renderAlerts { p with alerts := getSimulatedAlerts t1 t2 }

/-- The function `Alerts.fetchAlertsFromAPI`.  `result` is what the request settles with; the
parsed body is `data.alertas` (`none` when that field is missing or falsy), and reading it
fails when `response.json()` rejects or the body is `null`.  `t1` and `t2` are the clock
readings of `getSimulatedAlerts`. -/
def fetchAlertsFromAPI (t1 t2 : String) (result : FetchResult (Option (List Alert)))
    (p : Page) : Completion Page :=
  let p0 := p.get alertsUrl
  match result with
  | .rejected _ => fetchAlertsFallback t1 t2 p0
  | .resolved r =>
    if r.ok then
      match r.json with
      | .error _ => fetchAlertsFallback t1 t2 p0
      | .ok data =>
        match renderAlerts { p0 with alerts := data.getD [] } with
        | .normal q => .normal q
        | .thrown _ q => fetchAlertsFallback t1 t2 q
    else .normal p0

/-- The function `Alerts.exportToCSV`. -/
def exportToCSV (p : Page) : Page :=
  { p with opened := p.opened ++ [(csvUrl, "_blank")] }

end Alerts

/-! ## devices.js -/

namespace Devices

/-- The lookup `Devices.deviceTypes[tipo] || { name: '❓ Dispositivo', unit: '' }`: the pair
of the display name and the unit. -/
def deviceType (tipo : String) : String × String :=
  if tipo = "SENSOR_TEMPERATURA" then ("🌡️ Sensor Temperatura", "°C")
  else if tipo = "SENSOR_HUMEDAD" then ("💧 Sensor Humedad", "%")
  else if tipo = "SENSOR_LUZ" then ("💡 Sensor Luz", "lux")
  else if tipo = "ACTUADOR" then ("⚡ Actuador", "")
  else ("❓ Dispositivo", "")

/-- The expression `name.split(' ')[0]`: the text before the first blank. -/
def firstWord (name : String) : String :=
  String.mk (name.toList.takeWhile (fun c => c != ' '))

/-- The function `Devices.getLastReading`. -/
def getLastReading (deviceId : Int) : Option String :=
  if deviceId = 1 then some "24.5"
  else if deviceId = 2 then some "65.2"
  else if deviceId = 3 then some "750"
  else none

/-- The card built for one device inside the `forEach` of `renderDevices`. -/
def deviceCard (d : Device) : DeviceCard :=
  { icon := firstWord (deviceType d.tipo).1
    nombre := d.nombre
    typeName := (deviceType d.tipo).1
    ubicacion := d.ubicacion
    estado := if d.activo then "Activo" else "Inactivo"
    reading := (getLastReading d.id).getD "--" ++ (deviceType d.tipo).2
    id := d.id }

/-- The empty-state block written into `#devicesList`. -/
def emptyMessage : DevicesNode :=
  .message "🔌" "No hay dispositivos registrados" "Agregar primer dispositivo"

/-- The function `Devices.showError`. -/
def showError (p : Page) (message : String) : Page :=
  Utils.showNotification p message "error"

/-- The function `Devices.updateStats`. -/
def updateStats (p : Page) : Completion Page :=
  let activeDevices := (p.devices.filter (fun d => d.activo)).length
  match p.totalDispositivos with
  | none => .thrown nullTextContentMessage p
  | some _ => .normal { p with totalDispositivos := some (toString activeDevices) }

/-- The function `Devices.renderDevices`. -/
def renderDevices (p : Page) : Completion Page :=
  match p.devicesList with
  | none => .normal p
  | some _ =>
    if p.devices.length = 0 then
      .normal { p with devicesList := some [emptyMessage] }
    else
      updateStats { p with
        devicesList := some (p.devices.map (fun d => DevicesNode.card (deviceCard d))) }

/-- The `catch` block of `Devices.fetchDevicesFromAPI`, entered with `error.message`. -/
def fetchDevicesFailed (message : String) (p : Page) : Completion Page :=
  renderDevices { showError p ("Error al cargar dispositivos: " ++ message) with devices := [] }

/-- The function `Devices.fetchDevicesFromAPI`.  `result` is what the request settles with;
the parsed body is `none` when it is a falsy JSON value (`data || []`). -/
def fetchDevicesFromAPI (result : FetchResult (Option (List Device))) (p : Page) :
    Completion Page :=
  let p0 := p.get App.JAVA_API_BASE_URL
  match result with
  | .rejected message => fetchDevicesFailed message p0
  | .resolved r =>
    if r.ok then
      match r.json with
      | .error message => fetchDevicesFailed message p0
      | .ok data =>
        match renderDevices { p0 with devices := data.getD [] } with
        | .normal q => .normal q
        | .thrown message q => fetchDevicesFailed message q
    else fetchDevicesFailed "Error en la respuesta del servidor" p0

end Devices

/-! ## charts.js -/

namespace Charts

/-- The data of `Charts.chart`: `data.labels` and `data.datasets[0].data`.  The values are
the strings that `toFixed(1)` returns. -/
structure Chart where
  labels : List String
  data : List String
deriving DecidableEq, Repr

/-- The function `Charts.generateTimeLabels`: `now` is `new Date().getTime()` and
`format` is `toLocaleTimeString` with the options of the source. -/
def generateTimeLabels (format : Int → String) (now : Int) : List String :=
  (List.range 10).map (fun (j : Nat) => format (now - (9 - (j : Int)) * 60000))

/-- The function `Charts.generateInitialData`: `draw i` is the text
`(Math.random() * 10 + 20).toFixed(1)` of the draw made in iteration `i`. -/
def generateInitialData (draw : Nat → String) : List String :=
  (List.range 10).map draw

/-- The function `Charts.init`: `canvas` tells whether `#temperatureChart` exists. -/
def init (canvas : Bool) (format : Int → String) (now : Int) (draw : Nat → String)
    (chart : Option Chart) : Option Chart :=
  if canvas then some ⟨generateTimeLabels format now, generateInitialData draw⟩ else chart

/-- The function `Charts.updateChart`: `tick` is the pair of the label of the current time
and the new random value.  The redraw `chart.update('none')` does not change the data. -/
def updateChart (tick : String × String) (chart : Option Chart) : Option Chart :=
  match chart with
  | none => none
  | some c =>
    let labels := c.labels ++ [tick.1]
    let data := c.data ++ [tick.2]
    if labels.length > 10 then some ⟨labels.tail, data.tail⟩ else some ⟨labels, data⟩

/-- Successive timer calls of `Charts.updateChart`, one per entry of `ticks`. -/
def updateCharts (ticks : List (String × String)) (chart : Option Chart) : Option Chart :=
  ticks.foldl (fun c t => updateChart t c) chart

end Charts

/-! ## app.js: device mutations and the device form -/

namespace App

/-- The `fetch` call of `App.createDevice`. -/
def createRequest (deviceData : DeviceData) : Request :=
  ⟨"POST", JAVA_API_BASE_URL, some "application/json", some deviceData⟩

/-- The `fetch` call of `App.updateDevice`. -/
def updateRequest (deviceId : Int) (deviceData : DeviceData) : Request :=
  ⟨"PUT", JAVA_API_BASE_URL ++ "/" ++ toString deviceId, some "application/json",
    some deviceData⟩

/-- The `fetch` call of `App.deleteDevice`. -/
def deleteRequest (deviceId : Int) : Request :=
  ⟨"DELETE", JAVA_API_BASE_URL ++ "/" ++ toString deviceId, none, none⟩

/-- The error thrown for a response that is not ok. -/
def statusError {J : Type} (r : Response J) : String :=
  "Error " ++ toString r.status ++ ": " ++ r.text

/-- The function `App.createDevice`: the page with the request recorded, and the value
returned (`Except.ok`) or the message of the error thrown (`Except.error`). -/
def createDevice {J : Type} (deviceData : DeviceData) (result : FetchResult J) (p : Page) :
    Page × Except String J :=
  let p0 := { p with requests := p.requests ++ [createRequest deviceData] }
  match result with
  | .rejected message => (p0, .error message)
  | .resolved r => if !r.ok then (p0, .error (statusError r)) else (p0, r.json)

/-- The function `App.updateDevice`. -/
def updateDevice {J : Type} (deviceId : Int) (deviceData : DeviceData)
    (result : FetchResult J) (p : Page) : Page × Except String J :=
  let p0 := { p with requests := p.requests ++ [updateRequest deviceId deviceData] }
  match result with
  | .rejected message => (p0, .error message)
  | .resolved r => if !r.ok then (p0, .error (statusError r)) else (p0, r.json)

/-- The function `App.deleteDevice`. -/
def deleteDevice {J : Type} (deviceId : Int) (result : FetchResult J) (p : Page) :
    Page × Except String Bool :=
  let p0 := { p with requests := p.requests ++ [deleteRequest deviceId] }
  match result with
  | .rejected message => (p0, .error message)
  | .resolved r => if !r.ok then (p0, .error (statusError r)) else (p0, .ok true)

/-- The values of the four fields of the device form when it is submitted. -/
structure DeviceForm where
  deviceName : String
  deviceType : String
  deviceLocation : String
  deviceDescription : String
deriving DecidableEq, Repr

/-- The object `deviceData` as `App.handleDeviceSubmit` has built it when it is sent. -/
def buildDeviceData (form : DeviceForm) : DeviceData :=
  let deviceData : DeviceData :=
    { nombre := trim form.deviceName, tipo := form.deviceType,
      ubicacion := form.deviceLocation, activo := true, descripcion := none }
  let descripcion := trim form.deviceDescription
  if descripcion ≠ "" then { deviceData with descripcion := some descripcion } else deviceData

/-- The call `closeDeviceForm()` of a function that the HTML template defines: the call is
recorded; what the function does to the page is not in these sources. -/
def closeDeviceForm (p : Page) : Page :=
  { p with calls := p.calls ++ ["closeDeviceForm"] }

/-- What `App.handleDeviceSubmit` does once the create or update call has settled with
`outcome`. -/
def afterSave {J : Type} (success : String) (refetch : FetchResult (Option (List Device)))
    (outcome : Page × Except String J) : Page :=
  match outcome with
  | (p1, .ok _) =>
    (Devices.fetchDevicesFromAPI refetch
      (closeDeviceForm (Utils.showNotification p1 success "success"))).state
  | (p1, .error message) =>
    Utils.showNotification p1 ("Error al guardar el dispositivo: " ++ message) "error"

/-- The function `App.handleDeviceSubmit`.  `mutation` is what the create or update request
settles with, `refetch` what the request of the `Devices.fetchDevicesFromAPI()` call that
follows a successful save settles with; that call is not awaited, so an error it throws
does not reach the handler. -/
def handleDeviceSubmit {J : Type} (form : DeviceForm) (mutation : FetchResult J)
    (refetch : FetchResult (Option (List Device))) (p : Page) : Page :=
  let deviceData := buildDeviceData form
  match p.currentEditingDevice with
  | some device =>
    afterSave "Dispositivo actualizado correctamente" refetch
      (updateDevice device.id deviceData mutation p)
  | none =>
    afterSave "Dispositivo creado correctamente" refetch
      (createDevice deviceData mutation p)

/-- The function `App.updateCharCount`: the new texts of `#chars-remaining` and
`#desc-counter`, written only when the input and both counters exist. -/
def updateCharCount (input : Option String) (counter descCounter : Option String) :
    Option String × Option String :=
  match input, counter, descCounter with
  | some value, some _, some _ =>
    (some (toString (15 - (jsLength value : Int))),
      some ("(" ++ toString (jsLength value) ++ "/15)"))
  | _, _, _ => (counter, descCounter)

end App

/-! ## app.js: dashboard statistics -/

/-- The operations on JavaScript numbers that `App.updateDashboardStats` uses, over a type
`N` of numbers: the literal `0`, the sum `x + y`, the quotient `x / n` by a count and the
text `x.toFixed(1)`.  They are a parameter: the rounding of floating-point numbers is not
modelled. -/
structure NumberOps (N : Type) where
  zero : N
  add : N → N → N
  divide : N → Nat → N
  toFixed1 : N → String

/-- The object `zona.estadisticas`: `temperatura` and `humedad` hold the field `promedio` of
the entry, and are `none` when the zone has no such entry. -/
structure ZoneStats (N : Type) where
  temperatura : Option N
  humedad : Option N

/-- The record of one zone; `estadisticas` is `none` when the zone has no such field. -/
structure Zone (N : Type) where
  estadisticas : Option (ZoneStats N)

/-- The two elements that `App.updateDashboardStats` writes: the texts of `#tempPromedio`
and `#humedadPromedio`, `none` when the document has no such element. -/
structure StatsPanel where
  tempPromedio : Option String
  humedadPromedio : Option String
deriving DecidableEq, Repr

namespace App

/-- The four accumulators of `App.updateDashboardStats`. -/
structure Totals (N : Type) where
  totalTemp : N
  totalHumidity : N
  tempCount : Nat
  humidityCount : Nat

/-- The body of the `forEach` over the zones in `App.updateDashboardStats`. -/
def addZone {N : Type} (ops : NumberOps N) (t : Totals N) (zona : Zone N) : Totals N :=
  let t1 :=
    match zona.estadisticas with
    | some e =>
      match e.temperatura with
      | some promedio =>
        { t with totalTemp := ops.add t.totalTemp promedio, tempCount := t.tempCount + 1 }
      | none => t
    | none => t
  match zona.estadisticas with
  | some e =>
    match e.humedad with
    | some promedio =>
      { t1 with totalHumidity := ops.add t1.totalHumidity promedio,
                humidityCount := t1.humidityCount + 1 }
    | none => t1
  | none => t1

/-- The function `App.updateDashboardStats`.  `stats` is the list `Object.values(stats)` of
the zone records, `none` when `stats` is missing. -/
def updateDashboardStats {N : Type} (ops : NumberOps N) (stats : Option (List (Zone N)))
    (panel : StatsPanel) : Completion StatsPanel :=
  match stats with
  | none => .normal panel
  | some zonas =>
    let t := zonas.foldl (addZone ops) ⟨ops.zero, ops.zero, 0, 0⟩
    let avgTemp :=
      if t.tempCount > 0 then ops.toFixed1 (ops.divide t.totalTemp t.tempCount) else "--"
    let avgHumidity :=
      if t.humidityCount > 0 then ops.toFixed1 (ops.divide t.totalHumidity t.humidityCount)
      else "--"
    match panel.tempPromedio with
    | none => .thrown nullTextContentMessage panel
    | some _ =>
      let panel1 := { panel with tempPromedio := some (avgTemp ++ "°C") }
      match panel.humedadPromedio with
      | none => .thrown nullTextContentMessage panel1
      | some _ => .normal { panel1 with humedadPromedio := some (avgHumidity ++ "%") }

end App

/-! ## Observations and sample pages used in the statements below -/

/-- The alert cards among the children of a container. -/
def cardsOf : List AlertsNode → List AlertCard
  | [] => []
  | .card c :: rest => c :: cardsOf rest
  | .message _ _ _ :: rest => cardsOf rest

/-- The alert cards shown in `#alertsList` (none when the page has no such element). -/
def Page.alertCards (p : Page) : List AlertCard :=
  match p.alertsList with
  | none => []
  | some nodes => cardsOf nodes

/-- The requests issued between page `p` and the later page `q`. -/
def issuedSince (p q : Page) : List Request :=
  q.requests.drop p.requests.length

/-- A create or update request: the method is POST or PUT. -/
def isSave (r : Request) : Bool :=
  r.method = "POST" || r.method = "PUT"

/-- Alert `a` has a strictly lower `nivel_criticidad` than alert `b` (both integers). -/
def lowerLevel (a b : Alert) : Bool :=
  match a.nivel_criticidad, b.nivel_criticidad with
  | some x, some y => decide (x < y)
  | _, _ => false

/-- A page with both containers and both counters and nothing in them. -/
def blankPage : Page :=
  { alerts := [], devices := [], currentEditingDevice := none,
    alertsList := some [], totalAlertas := some "--",
    devicesList := some [], totalDispositivos := some "--",
    notifications := [], requests := [], opened := [], calls := [] }

/-- Two active devices. -/
def twoDevices : List Device :=
  [ ⟨1, "Sensor Temp A1", "SENSOR_TEMPERATURA", "A", true, none⟩,
    ⟨2, "Sensor Hum B2", "SENSOR_HUMEDAD", "B", true, none⟩ ]

/-- The dashboard after two active devices have been fetched and rendered: the counter of
active devices reads 2. -/
def twoDevicePage : Page :=
  { blankPage with
    devices := twoDevices
    devicesList := some (twoDevices.map (fun d => DevicesNode.card (Devices.deviceCard d)))
    totalDispositivos := some "2" }

/-- A successful (200) response whose body parses to `data`. -/
def okResponse {α : Type} (data : α) : Response α :=
  { status := 200, json := .ok data, text := "" }

/-- A response with status 500. -/
def serverError {α : Type} : Response α :=
  { status := 500, json := .error "Unexpected token", text := "Internal Server Error" }

/-- An active alert with the given identifier and `nivel_criticidad`. -/
def sampleAlert (id : Int) (nivel : Option Int) : Alert :=
  { id := id, dispositivo_nombre := "Sensor", tipo_alerta := "TEMPERATURA_FUERA_RANGO",
    mensaje := "Temperatura", valor := "30", zona := "A", activa := true,
    fecha_creacion := "2025-01-01T00:00:00.000Z", nivel_criticidad := nivel }

/-- A page whose alert list holds an active alert of level 0 followed by an active alert of
level 1. -/
def zeroLevelPage : Page :=
  { blankPage with alerts := [sampleAlert 1 (some 0), sampleAlert 2 (some 1)] }

/-- Twelve active alerts with levels 1, 2, 3, 1, 2, 3, ... and one inactive alert. -/
def thirteenAlerts : List Alert :=
  (List.range 12).map (fun i => sampleAlert i (some ((i : Int) % 3 + 1))) ++
    [{ sampleAlert 12 (some 3) with activa := false }]

/-- A page holding `thirteenAlerts`, not yet rendered. -/
def thirteenAlertPage : Page :=
  { blankPage with alerts := thirteenAlerts }

/-- A page that shows one alert card and whose alert list now holds only an inactive
alert. -/
def staleAlertPage : Page :=
  { blankPage with
    alerts := [{ sampleAlert 1 (some 2) with activa := false }]
    alertsList := some [.card (Alerts.alertCard (sampleAlert 1 (some 2)))]
    totalAlertas := some "1" }


/-- A chart of ten points, as `Charts.init` creates it. -/
def tenPointChart : Charts.Chart :=
  { labels := ["10:00", "10:01", "10:02", "10:03", "10:04", "10:05", "10:06", "10:07",
      "10:08", "10:09"],
    data := ["20.0", "21.1", "22.2", "23.3", "24.4", "25.5", "26.6", "27.7", "28.8", "29.9"] }

/-- Eleven timer ticks: the label of the minute and the value drawn. -/
def elevenTicks : List (String × String) :=
  [("10:10", "20.5"), ("10:10", "21.5"), ("10:10", "22.5"), ("10:10", "23.5"),
   ("10:10", "24.5"), ("10:10", "25.5"), ("10:11", "26.5"), ("10:11", "27.5"),
   ("10:11", "28.5"), ("10:11", "29.5"), ("10:11", "20.1")]

/-- A form whose name is blank and whose description has 35 characters once trimmed. -/
def blankNameForm : App.DeviceForm :=
  { deviceName := "   ", deviceType := "ACTUADOR", deviceLocation := "A",
    deviceDescription := " una descripcion muy larga de prueba  " }

/-- The request that `App.handleDeviceSubmit` sends for `form` on page `p`: an update of
the device being edited, or a creation when none is. -/
def saveRequest (p : Page) (form : App.DeviceForm) : Request :=
  match p.currentEditingDevice with
  | some device => App.updateRequest device.id (App.buildDeviceData form)
  | none => App.createRequest (App.buildDeviceData form)


/-- A response with status 204 and an empty body, which `response.json()` rejects. -/
def noContent {α : Type} : Response α :=
  { status := 204, json := .error "Unexpected end of JSON input", text := "" }

/-- A device payload. -/
def sampleData : DeviceData :=
  { nombre := "Sensor Temp A1", tipo := "SENSOR_TEMPERATURA", ubicacion := "A", activo := true,
    descripcion := none }


/-- The values `temperatura.promedio` of the zones that carry a `temperatura` entry, in
the order of the zones. -/
def temperatures {N : Type} (zonas : List (Zone N)) : List N :=
  zonas.filterMap (fun zona => zona.estadisticas.bind (fun e => e.temperatura))

/-- The values `humedad.promedio` of the zones that carry a `humedad` entry, in the order
of the zones. -/
def humidities {N : Type} (zonas : List (Zone N)) : List N :=
  zonas.filterMap (fun zona => zona.estadisticas.bind (fun e => e.humedad))

/-- The mean of a list of numbers as `App.updateDashboardStats` computes it: the sum, taken
from `0` in the order of the list, divided by the number of entries. -/
def mean {N : Type} (ops : NumberOps N) (values : List N) : N :=
  ops.divide (values.foldl ops.add ops.zero) values.length

/-- Exact arithmetic on rational numbers, with `print` for `toFixed(1)`. -/
def exactOps (print : ℚ → String) : NumberOps ℚ :=
  { zero := 0, add := fun x y => x + y, divide := fun x n => x / (n : ℚ), toFixed1 := print }

/-- Numbers counted in tenths, for the examples: 225 stands for 22.5. -/
def tenths : NumberOps Int :=
  { zero := 0, add := fun x y => x + y, divide := fun x n => x / (n : Int),
    toFixed1 := fun x => toString (x / 10) ++ "." ++ toString (x % 10) }

/-- Three zones: temperature 20.0 and humidity 60.0; temperature 25.0 only; no statistics. -/
def threeZones : List (Zone Int) :=
  [ ⟨some ⟨some 200, some 600⟩⟩, ⟨some ⟨some 250, none⟩⟩, ⟨none⟩ ]

/-- A panel that shows 22.5°C and 60.0%. -/
def filledPanel : StatsPanel :=
  { tempPromedio := some "22.5°C", humedadPromedio := some "60.0%" }

/-- A panel with both elements, showing nothing yet. -/
def blankPanel : StatsPanel :=
  { tempPromedio := some "--°C", humedadPromedio := some "--%" }


/-! ## Lemmas on rendering -/

theorem renderAlerts_of_present (p : Page) (old : List AlertsNode) (c : String)
    (hl : p.alertsList = some old) (hc : p.totalAlertas = some c) :
    Alerts.renderAlerts p = .normal
      { p with
        totalAlertas := some (toString (p.alerts.filter (fun a => a.activa)).length)
        alertsList := some
          (if (p.alerts.filter (fun a => a.activa)).length = 0 then [Alerts.emptyMessage]
           else (Alerts.shownAlerts p.alerts).map (fun a => AlertsNode.card (Alerts.alertCard a))) } := by
  unfold Alerts.renderAlerts
  rw [hl, hc]
  by_cases h : (p.alerts.filter (fun a => a.activa)).length = 0
  · simp [h]
  · simp [h]

theorem renderAlerts_of_no_list (p : Page) (hl : p.alertsList = none) :
    Alerts.renderAlerts p = .normal p := by
  unfold Alerts.renderAlerts
  rw [hl]

theorem renderAlerts_of_no_counter (p : Page) (old : List AlertsNode)
    (hl : p.alertsList = some old) (hc : p.totalAlertas = none) :
    Alerts.renderAlerts p = .thrown nullTextContentMessage p := by
  unfold Alerts.renderAlerts
  rw [hl, hc]

theorem renderAlerts_requests (p : Page) :
    (Alerts.renderAlerts p).state.requests = p.requests := by
  cases hl : p.alertsList with
  | none => rw [renderAlerts_of_no_list p hl]; rfl
  | some old =>
    cases hc : p.totalAlertas with
    | none => rw [renderAlerts_of_no_counter p old hl hc]; rfl
    | some c => rw [renderAlerts_of_present p old c hl hc]; rfl

theorem renderDevices_of_present (p : Page) (old : List DevicesNode) (c : String)
    (hl : p.devicesList = some old) (hc : p.totalDispositivos = some c) :
    Devices.renderDevices p = .normal
      (if p.devices.length = 0 then { p with devicesList := some [Devices.emptyMessage] }
       else { p with
        devicesList := some (p.devices.map (fun d => DevicesNode.card (Devices.deviceCard d)))
        totalDispositivos := some (toString (p.devices.filter (fun d => d.activo)).length) }) := by
  unfold Devices.renderDevices Devices.updateStats
  rw [hl]
  by_cases h : p.devices.length = 0
  · simp [h]
  · simp [h, hc]

theorem renderDevices_requests (p : Page) :
    (Devices.renderDevices p).state.requests = p.requests := by
  unfold Devices.renderDevices Devices.updateStats
  cases p.devicesList with
  | none => rfl
  | some old =>
    by_cases h : p.devices.length = 0
    · simp [h, Completion.state]
    · cases hc : p.totalDispositivos <;> simp [h, hc, Completion.state]

theorem fetchDevicesFailed_requests (m : String) (p : Page) :
    (Devices.fetchDevicesFailed m p).state.requests = p.requests := by
  unfold Devices.fetchDevicesFailed
  rw [renderDevices_requests]
  rfl

theorem fetchDevices_requests (result : FetchResult (Option (List Device))) (p : Page) :
    (Devices.fetchDevicesFromAPI result p).state.requests
      = p.requests ++ [⟨"GET", App.JAVA_API_BASE_URL, none, none⟩] := by
  unfold Devices.fetchDevicesFromAPI
  cases result with
  | rejected m => simp only [fetchDevicesFailed_requests]; rfl
  | resolved r =>
    by_cases hok : r.ok = true
    · dsimp only
      rw [if_pos hok]
      cases hj : r.json with
      | error m => simp only [fetchDevicesFailed_requests]; rfl
      | ok data =>
        simp only
        have h := renderDevices_requests { p.get App.JAVA_API_BASE_URL with devices := data.getD [] }
        cases hr : Devices.renderDevices { p.get App.JAVA_API_BASE_URL with devices := data.getD [] } with
        | normal q => rw [hr] at h; simpa [Completion.state, Page.get] using h
        | thrown m q =>
          rw [hr] at h
          simp only [fetchDevicesFailed_requests]
          simpa [Completion.state, Page.get] using h
    · dsimp only
      rw [if_neg hok, fetchDevicesFailed_requests]; rfl

theorem fetchAlertsFallback_requests (t1 t2 : String) (p : Page) :
    (Alerts.fetchAlertsFallback t1 t2 p).state.requests = p.requests := by
  unfold Alerts.fetchAlertsFallback
  rw [renderAlerts_requests]

theorem fetchAlerts_requests (t1 t2 : String) (result : FetchResult (Option (List Alert)))
    (p : Page) :
    (Alerts.fetchAlertsFromAPI t1 t2 result p).state.requests
      = p.requests ++ [⟨"GET", Alerts.alertsUrl, none, none⟩] := by
  unfold Alerts.fetchAlertsFromAPI
  cases result with
  | rejected m => simp only [fetchAlertsFallback_requests]; rfl
  | resolved r =>
    by_cases hok : r.ok = true
    · dsimp only
      rw [if_pos hok]
      cases hj : r.json with
      | error m => simp only [fetchAlertsFallback_requests]; rfl
      | ok data =>
        simp only
        have h := renderAlerts_requests { p.get Alerts.alertsUrl with alerts := data.getD [] }
        cases hr : Alerts.renderAlerts { p.get Alerts.alertsUrl with alerts := data.getD [] } with
        | normal q => rw [hr] at h; simpa [Completion.state, Page.get] using h
        | thrown m q =>
          rw [hr] at h
          simp only [fetchAlertsFallback_requests]
          simpa [Completion.state, Page.get] using h
    · dsimp only
      rw [if_neg hok]; rfl


/-! ## Device counter (C1) and alert addresses (C2) -/

/-- For a successful device fetch that delivers a list with at least one record, on a page
with `#devicesList` and `#totalDispositivos`, the counter reads the number of records whose
`activo` flag is set. -/
theorem fetchDevices_counter_of_nonempty (p : Page) (r : Response (Option (List Device)))
    (L : List Device) (old : List DevicesNode) (c : String)
    (hl : p.devicesList = some old) (hc : p.totalDispositivos = some c)
    (hok : r.ok = true) (hdata : r.json = .ok (some L)) (hne : L ≠ []) :
    (Devices.fetchDevicesFromAPI (.resolved r) p).state.totalDispositivos
      = some (toString (L.filter (fun d => d.activo)).length) := by
  unfold Devices.fetchDevicesFromAPI
  dsimp only
  rw [if_pos hok, hdata]
  dsimp only
  rw [renderDevices_of_present _ old c (by simpa [Page.get] using hl)
    (by simpa [Page.get] using hc)]
  have hlen : ¬ L.length = 0 := by simpa using hne
  simp [Completion.state, hlen]

/-- C1, where the code departs from it: on a page with `#devicesList` and
`#totalDispositivos`, a successful (2xx) device fetch that delivers the empty list replaces
`Devices.devices` by the empty list and shows the empty-state block, but leaves the text
of `#totalDispositivos` as it was, whatever it showed before. -/
theorem fetchDevices_empty_list_leaves_counter (p : Page)
    (r : Response (Option (List Device))) (old : List DevicesNode) (c : String)
    (hl : p.devicesList = some old) (hc : p.totalDispositivos = some c)
    (hok : r.ok = true) (hdata : r.json = .ok (some [])) :
    (Devices.fetchDevicesFromAPI (.resolved r) p).state.devices = [] ∧
    (Devices.fetchDevicesFromAPI (.resolved r) p).state.devicesList
      = some [Devices.emptyMessage] ∧
    (Devices.fetchDevicesFromAPI (.resolved r) p).state.totalDispositivos = some c := by
  unfold Devices.fetchDevicesFromAPI
  dsimp only
  rw [if_pos hok, hdata]
  dsimp only
  rw [renderDevices_of_present _ old c (by simpa [Page.get] using hl)
    (by simpa [Page.get] using hc)]
  simp [Completion.state, Page.get, hc]

/-- C1 at a concrete page: after two active devices were shown (counter 2), a successful
fetch of the empty list leaves the counter at 2, while the number of active records of
the fetched list is 0. -/
theorem fetchDevices_empty_list_leaves_counter_witness :
    ((Devices.fetchDevicesFromAPI (.resolved (okResponse (some []))) twoDevicePage).state.devices
        = [] ∧
      (Devices.fetchDevicesFromAPI (.resolved (okResponse (some []))) twoDevicePage).state.devicesList
        = some [Devices.emptyMessage] ∧
      (Devices.fetchDevicesFromAPI (.resolved (okResponse (some []))) twoDevicePage).state.totalDispositivos
        = some "2") ∧
    toString (([] : List Device).filter (fun d => d.activo)).length = "0" :=
  ⟨fetchDevices_empty_list_leaves_counter twoDevicePage (okResponse (some []))
    (twoDevices.map (fun d => DevicesNode.card (Devices.deviceCard d))) "2" rfl rfl rfl rfl,
   by decide⟩

/-- C2, where the code departs from it: `Alerts.fetchAlertsFromAPI` and
`Alerts.exportToCSV` read the property `App.API_BASE_URL`, which the `App` object does not
define, so the request goes to `undefined/alertas/activas` and the export opens
`undefined/reportes/alertas/csv`; neither is an address under `App.PYTHON_API_BASE_URL`. -/
theorem alert_addresses_read_undefined_base (t1 t2 : String)
    (result : FetchResult (Option (List Alert))) (p : Page) :
    App.property "API_BASE_URL" = none ∧
    (Alerts.fetchAlertsFromAPI t1 t2 result p).state.requests
      = p.requests ++ [⟨"GET", "undefined/alertas/activas", none, none⟩] ∧
    (Alerts.exportToCSV p).opened = p.opened ++ [("undefined/reportes/alertas/csv", "_blank")] ∧
    "undefined/alertas/activas" ≠ App.PYTHON_API_BASE_URL ++ "/alertas/activas" ∧
    "undefined/reportes/alertas/csv" ≠ App.PYTHON_API_BASE_URL ++ "/reportes/alertas/csv" := by
  refine ⟨by decide, ?_, ?_, by decide, by decide⟩
  · rw [fetchAlerts_requests]
    have h : Alerts.alertsUrl = "undefined/alertas/activas" := by decide
    rw [h]
  · have h : Alerts.csvUrl = "undefined/reportes/alertas/csv" := by decide
    simp [Alerts.exportToCSV, h]

/-! ## Alert feed (C3 to C7) -/

theorem cardsOf_map_card (l : List Alert) :
    cardsOf (l.map (fun a => AlertsNode.card (Alerts.alertCard a))) = l.map Alerts.alertCard := by
  induction l with
  | nil => rfl
  | cons a l ih => simp [cardsOf, ih]

theorem compareAlerts_nonpos_iff (a b : Alert) :
    Alerts.compareAlerts a b ≤ 0 ↔ Alerts.severity b ≤ Alerts.severity a := by
  unfold Alerts.compareAlerts
  omega

/-- The sorted array is in order of non-increasing severity. -/
theorem arraySort_compareAlerts_pairwise (l : List Alert) :
    (arraySort Alerts.compareAlerts l).Pairwise
      (fun a b => Alerts.severity b ≤ Alerts.severity a) := by
  haveI : IsTotal Alert (fun a b => Alerts.compareAlerts a b ≤ 0) :=
    ⟨fun a b => by simp only [compareAlerts_nonpos_iff]; omega⟩
  haveI : IsTrans Alert (fun a b => Alerts.compareAlerts a b ≤ 0) :=
    ⟨fun a b c hab hbc => by simp only [compareAlerts_nonpos_iff] at *; omega⟩
  have h := List.sorted_insertionSort (fun a b => Alerts.compareAlerts a b ≤ 0) l
  exact List.Pairwise.imp (fun {a b} hab => (compareAlerts_nonpos_iff a b).mp hab) h

theorem shownAlerts_pairwise (l : List Alert) :
    (Alerts.shownAlerts l).Pairwise (fun a b => Alerts.severity b ≤ Alerts.severity a) :=
  List.Pairwise.sublist (List.take_sublist 10 _) (arraySort_compareAlerts_pairwise _)

theorem mem_shownAlerts {l : List Alert} {a : Alert} (h : a ∈ Alerts.shownAlerts l) :
    a ∈ l ∧ a.activa = true := by
  unfold Alerts.shownAlerts arraySort at h
  have h1 := List.mem_of_mem_take h
  have h2 := (List.perm_insertionSort _ _).mem_iff.mp h1
  simpa using h2

theorem length_shownAlerts (l : List Alert) :
    (Alerts.shownAlerts l).length = min 10 (l.filter (fun a => a.activa)).length := by
  unfold Alerts.shownAlerts arraySort
  rw [List.length_take, List.length_insertionSort]

theorem shownAlerts_eq_nil {l : List Alert} (h : (l.filter (fun a => a.activa)).length = 0) :
    Alerts.shownAlerts l = [] := by
  have := length_shownAlerts l
  rw [h] at this
  exact List.length_eq_zero.mp (by simpa using this)

/-- The alert cards on the page after `renderAlerts`, when both elements exist. -/
theorem renderAlerts_alertCards (p : Page) (old : List AlertsNode) (c : String)
    (hl : p.alertsList = some old) (hc : p.totalAlertas = some c) :
    (Alerts.renderAlerts p).state.alertCards = (Alerts.shownAlerts p.alerts).map Alerts.alertCard := by
  rw [renderAlerts_of_present p old c hl hc]
  by_cases h : (p.alerts.filter (fun a => a.activa)).length = 0
  · simp only [Completion.state, Page.alertCards, h, if_true, shownAlerts_eq_nil h]
    rfl
  · simp only [Completion.state, Page.alertCards, h, if_false, cardsOf_map_card]

/-- C3 as stated fails: with an active alert of level 0 followed by an active alert of
level 1 (both levels are integers), `renderAlerts` shows the card of the level 0 alert
before the card of the level 1 alert, so a shown alert has a strictly lower level than one
shown after it. -/
theorem renderAlerts_zero_level_first :
    (∀ a ∈ zeroLevelPage.alerts, ∃ n : Int, a.nivel_criticidad = some n) ∧
    Alerts.shownAlerts zeroLevelPage.alerts = [sampleAlert 1 (some 0), sampleAlert 2 (some 1)] ∧
    (Alerts.renderAlerts zeroLevelPage).state.alertsList
      = some [.card (Alerts.alertCard (sampleAlert 1 (some 0))),
              .card (Alerts.alertCard (sampleAlert 2 (some 1)))] ∧
    lowerLevel (sampleAlert 1 (some 0)) (sampleAlert 2 (some 1)) = true ∧
    ¬ (Alerts.shownAlerts zeroLevelPage.alerts).Pairwise (fun a b => lowerLevel a b = false) := by
  refine ⟨?_, by decide, by decide, by decide, by decide⟩
  intro a ha
  simp only [zeroLevelPage, blankPage, List.mem_cons, List.mem_singleton, List.not_mem_nil,
    or_false] at ha
  rcases ha with rfl | rfl
  · exact ⟨0, rfl⟩
  · exact ⟨1, rfl⟩

/-- C3 amended: for every alert list whose `nivel_criticidad` values are non-zero integers,
the alerts whose cards `renderAlerts` shows are in descending order of level (no shown
alert has a strictly lower level than one shown after it); these are the cards on the page
when `#alertsList` and `#totalAlertas` exist, and the page is left as it was otherwise. -/
theorem renderAlerts_descending_levels (p : Page)
    (hint : ∀ a ∈ p.alerts, ∃ n : Int, a.nivel_criticidad = some n ∧ n ≠ 0) :
    (Alerts.shownAlerts p.alerts).Pairwise (fun a b => lowerLevel a b = false) ∧
    (∀ old c, p.alertsList = some old → p.totalAlertas = some c →
      (Alerts.renderAlerts p).state.alertCards
        = (Alerts.shownAlerts p.alerts).map Alerts.alertCard) ∧
    (p.alertsList = none ∨ p.totalAlertas = none → (Alerts.renderAlerts p).state = p) := by
  refine ⟨?_, fun old c hl hc => renderAlerts_alertCards p old c hl hc, ?_⟩
  · have hsev : ∀ a ∈ Alerts.shownAlerts p.alerts,
        a.nivel_criticidad = some (Alerts.severity a) := by
      intro a ha
      obtain ⟨n, hn, hn0⟩ := hint a (mem_shownAlerts ha).1
      simp [Alerts.severity, hn, hn0]
    have hpw := shownAlerts_pairwise p.alerts
    have hmem : (Alerts.shownAlerts p.alerts).Pairwise
        (fun a b => a ∈ Alerts.shownAlerts p.alerts ∧ b ∈ Alerts.shownAlerts p.alerts) := by
      rw [List.pairwise_iff_forall_sublist]
      intro a b hab
      exact ⟨hab.subset (by simp), hab.subset (by simp)⟩
    refine (hpw.and hmem).imp ?_
    intro a b hab
    obtain ⟨hle, ha, hb⟩ := hab
    unfold lowerLevel
    rw [hsev a ha, hsev b hb]
    simp only [decide_eq_false_iff_not, not_lt]
    exact hle
  · intro h
    cases hl : p.alertsList with
    | none => rw [renderAlerts_of_no_list p hl]; rfl
    | some old =>
      rcases h with h | h
      · rw [hl] at h; cases h
      · rw [renderAlerts_of_no_counter p old hl h]; rfl

/-- C3 amended, at a page with twelve active alerts of levels 1 to 3. -/
theorem renderAlerts_descending_levels_witness :
    (∀ a ∈ thirteenAlertPage.alerts, ∃ n : Int, a.nivel_criticidad = some n ∧ n ≠ 0) ∧
    ((Alerts.shownAlerts thirteenAlertPage.alerts).Pairwise (fun a b => lowerLevel a b = false) ∧
    (∀ old c, thirteenAlertPage.alertsList = some old → thirteenAlertPage.totalAlertas = some c →
      (Alerts.renderAlerts thirteenAlertPage).state.alertCards
        = (Alerts.shownAlerts thirteenAlertPage.alerts).map Alerts.alertCard) ∧
    (thirteenAlertPage.alertsList = none ∨ thirteenAlertPage.totalAlertas = none →
      (Alerts.renderAlerts thirteenAlertPage).state = thirteenAlertPage)) :=
  have h : ∀ a ∈ thirteenAlertPage.alerts, ∃ n : Int, a.nivel_criticidad = some n ∧ n ≠ 0 := by
    intro a ha
    have hlev : ∀ b ∈ thirteenAlertPage.alerts,
        b.nivel_criticidad = some 1 ∨ b.nivel_criticidad = some 2 ∨ b.nivel_criticidad = some 3 := by
      decide
    rcases hlev a ha with h | h | h
    · exact ⟨1, h, by decide⟩
    · exact ⟨2, h, by decide⟩
    · exact ⟨3, h, by decide⟩
  ⟨h, renderAlerts_descending_levels thirteenAlertPage h⟩

/-- C4: on a page with `#alertsList` and `#totalAlertas`, for an alert list with `a` active
records `renderAlerts` shows exactly `min 10 a` alert cards (and, when `a > 0`, nothing
but these cards), every card shown is the card of an active alert of the list, and
`#totalAlertas` reads `a`, the full count of active alerts. -/
theorem renderAlerts_shows_capped_cards (p : Page) (old : List AlertsNode) (c : String)
    (hl : p.alertsList = some old) (hc : p.totalAlertas = some c) :
    (Alerts.renderAlerts p).state.alertCards.length
      = min 10 (p.alerts.filter (fun a => a.activa)).length ∧
    (0 < (p.alerts.filter (fun a => a.activa)).length →
      (Alerts.renderAlerts p).state.alertsList
        = some ((Alerts.renderAlerts p).state.alertCards.map AlertsNode.card)) ∧
    (∀ card ∈ (Alerts.renderAlerts p).state.alertCards,
      ∃ a ∈ p.alerts, a.activa = true ∧ card = Alerts.alertCard a) ∧
    (Alerts.renderAlerts p).state.totalAlertas
      = some (toString (p.alerts.filter (fun a => a.activa)).length) := by
  have hcards := renderAlerts_alertCards p old c hl hc
  refine ⟨?_, ?_, ?_, ?_⟩
  · rw [hcards, List.length_map, length_shownAlerts]
  · intro hpos
    rw [hcards, renderAlerts_of_present p old c hl hc]
    have h : ¬ (p.alerts.filter (fun a => a.activa)).length = 0 := by omega
    simp only [Completion.state, h, if_false, List.map_map]
    rfl
  · intro card hcard
    rw [hcards] at hcard
    obtain ⟨a, ha, rfl⟩ := List.mem_map.mp hcard
    exact ⟨a, (mem_shownAlerts ha).1, (mem_shownAlerts ha).2, rfl⟩
  · rw [renderAlerts_of_present p old c hl hc]
    rfl

/-- C4 at a page with twelve active alerts and one inactive alert: ten cards are shown
and the counter reads 12. -/
theorem renderAlerts_shows_capped_cards_witness :
    (thirteenAlertPage.alertsList = some [] ∧ thirteenAlertPage.totalAlertas = some "--") ∧
    ((Alerts.renderAlerts thirteenAlertPage).state.alertCards.length
      = min 10 (thirteenAlertPage.alerts.filter (fun a => a.activa)).length ∧
    (0 < (thirteenAlertPage.alerts.filter (fun a => a.activa)).length →
      (Alerts.renderAlerts thirteenAlertPage).state.alertsList
        = some ((Alerts.renderAlerts thirteenAlertPage).state.alertCards.map AlertsNode.card)) ∧
    (∀ card ∈ (Alerts.renderAlerts thirteenAlertPage).state.alertCards,
      ∃ a ∈ thirteenAlertPage.alerts, a.activa = true ∧ card = Alerts.alertCard a) ∧
    (Alerts.renderAlerts thirteenAlertPage).state.totalAlertas
      = some (toString (thirteenAlertPage.alerts.filter (fun a => a.activa)).length)) ∧
    (Alerts.renderAlerts thirteenAlertPage).state.alertCards.length = 10 ∧
    (Alerts.renderAlerts thirteenAlertPage).state.totalAlertas = some "12" :=
  ⟨⟨rfl, rfl⟩, renderAlerts_shows_capped_cards thirteenAlertPage [] "--" rfl rfl,
    by decide, by decide⟩

/-- C5: whenever the request of `fetchAlertsFromAPI` rejects, `Alerts.alerts` becomes the
two-record sample list whatever it held before; on a page with `#alertsList` and
`#totalAlertas` the list then shows the card of 'Sensor Temp A1' (level 2) followed by the
card of 'Sensor Hum B2' (level 1) and nothing else, and the counter reads 2. -/
theorem fetchAlerts_rejected_shows_sample (t1 t2 message : String) (p : Page) :
    (Alerts.fetchAlertsFromAPI t1 t2 (.rejected message) p).state.alerts
      = Alerts.getSimulatedAlerts t1 t2 ∧
    (Alerts.getSimulatedAlerts t1 t2).map (fun a => (a.dispositivo_nombre, a.nivel_criticidad))
      = [("Sensor Temp A1", some 2), ("Sensor Hum B2", some 1)] ∧
    (∀ old c, p.alertsList = some old → p.totalAlertas = some c →
      (Alerts.fetchAlertsFromAPI t1 t2 (.rejected message) p).state.alertsList
        = some ((Alerts.getSimulatedAlerts t1 t2).map
            (fun a => AlertsNode.card (Alerts.alertCard a))) ∧
      (Alerts.fetchAlertsFromAPI t1 t2 (.rejected message) p).state.totalAlertas = some "2") := by
  have hfetch : Alerts.fetchAlertsFromAPI t1 t2 (.rejected message) p
      = Alerts.renderAlerts
          { p.get Alerts.alertsUrl with alerts := Alerts.getSimulatedAlerts t1 t2 } := rfl
  refine ⟨?_, rfl, ?_⟩
  · rw [hfetch]
    cases hl : p.alertsList with
    | none => rw [renderAlerts_of_no_list _ (by simpa [Page.get] using hl)]; rfl
    | some old =>
      cases hc : p.totalAlertas with
      | none =>
        rw [renderAlerts_of_no_counter _ old (by simpa [Page.get] using hl)
          (by simpa [Page.get] using hc)]
        rfl
      | some c =>
        rw [renderAlerts_of_present _ old c (by simpa [Page.get] using hl)
          (by simpa [Page.get] using hc)]
        rfl
  · intro old c hl hc
    rw [hfetch, renderAlerts_of_present _ old c (by simpa [Page.get] using hl)
      (by simpa [Page.get] using hc)]
    have hshown : Alerts.shownAlerts (Alerts.getSimulatedAlerts t1 t2)
        = Alerts.getSimulatedAlerts t1 t2 := by
      simp [Alerts.shownAlerts, Alerts.getSimulatedAlerts, arraySort, List.insertionSort,
        List.orderedInsert, Alerts.compareAlerts, Alerts.severity]
    have hlen : ((Alerts.getSimulatedAlerts t1 t2).filter (fun a => a.activa)).length = 2 := rfl
    constructor
    · simp only [Completion.state, hshown]
      rfl
    · simp only [Completion.state, hlen]
      decide

/-- C5 at a page that held an inactive alert and showed one card. -/
theorem fetchAlerts_rejected_shows_sample_witness :
    (staleAlertPage.alertsList = some [.card (Alerts.alertCard (sampleAlert 1 (some 2)))] ∧
      staleAlertPage.totalAlertas = some "1") ∧
    (Alerts.fetchAlertsFromAPI "t1" "t2" (.rejected "Failed to fetch") staleAlertPage).state.alerts
      = Alerts.getSimulatedAlerts "t1" "t2" ∧
    (Alerts.fetchAlertsFromAPI "t1" "t2" (.rejected "Failed to fetch") staleAlertPage).state.alertsList
      = some ((Alerts.getSimulatedAlerts "t1" "t2").map
          (fun a => AlertsNode.card (Alerts.alertCard a))) ∧
    (Alerts.fetchAlertsFromAPI "t1" "t2" (.rejected "Failed to fetch") staleAlertPage).state.totalAlertas
      = some "2" :=
  ⟨⟨rfl, rfl⟩,
    (fetchAlerts_rejected_shows_sample "t1" "t2" "Failed to fetch" staleAlertPage).1,
    ((fetchAlerts_rejected_shows_sample "t1" "t2" "Failed to fetch" staleAlertPage).2.2
      _ "1" rfl rfl).1,
    ((fetchAlerts_rejected_shows_sample "t1" "t2" "Failed to fetch" staleAlertPage).2.2
      _ "1" rfl rfl).2⟩

/-- C6, where the code departs from it: when the server answers the alert request with a
status that is not 2xx, `fetchAlertsFromAPI` has no branch for it: nothing is thrown, the
`catch` block is not entered, `Alerts.alerts` and the page stay as they were (only the
request has been issued) and nothing is rendered. -/
theorem fetchAlerts_not_ok_changes_nothing (t1 t2 : String)
    (r : Response (Option (List Alert))) (p : Page) (hok : r.ok = false) :
    Alerts.fetchAlertsFromAPI t1 t2 (.resolved r) p = .normal (p.get Alerts.alertsUrl) := by
  unfold Alerts.fetchAlertsFromAPI
  dsimp only
  rw [hok]
  rfl

/-- C6 at a concrete page: with an empty `Alerts.alerts` and a response of status 500, the
alert list stays empty instead of becoming the sample list, and `#alertsList` and
`#totalAlertas` are not written. -/
theorem fetchAlerts_not_ok_changes_nothing_witness :
    (serverError : Response (Option (List Alert))).ok = false ∧
    Alerts.fetchAlertsFromAPI "t1" "t2" (.resolved serverError) blankPage
      = .normal (blankPage.get Alerts.alertsUrl) ∧
    (Alerts.fetchAlertsFromAPI "t1" "t2" (.resolved serverError) blankPage).state.alerts = [] ∧
    (Alerts.fetchAlertsFromAPI "t1" "t2" (.resolved serverError) blankPage).state.alerts
      ≠ Alerts.getSimulatedAlerts "t1" "t2" ∧
    (Alerts.fetchAlertsFromAPI "t1" "t2" (.resolved serverError) blankPage).state.alertsList
      = some [] ∧
    (Alerts.fetchAlertsFromAPI "t1" "t2" (.resolved serverError) blankPage).state.totalAlertas
      = some "--" :=
  ⟨rfl, fetchAlerts_not_ok_changes_nothing "t1" "t2" serverError blankPage rfl,
    by decide, by decide, by decide, by decide⟩

/-- C7: on a page with `#alertsList` (and the `#totalAlertas` counter), for every alert list
without an active alert, the empty list included, `renderAlerts` sets the counter to 0 and
leaves in `#alertsList` the empty-state block 'No hay alertas activas' alone, with no
alert card. -/
theorem renderAlerts_no_active_shows_empty_state (p : Page) (old : List AlertsNode)
    (c : String) (hl : p.alertsList = some old) (hc : p.totalAlertas = some c)
    (hnone : ∀ a ∈ p.alerts, a.activa = false) :
    (Alerts.renderAlerts p).state.totalAlertas = some "0" ∧
    (Alerts.renderAlerts p).state.alertsList
      = some [.message "✅" "No hay alertas activas" "Todo funciona correctamente"] ∧
    (Alerts.renderAlerts p).state.alertCards = [] ∧
    (Alerts.renderAlerts p).threw = false := by
  have hfilter : p.alerts.filter (fun a => a.activa) = [] := by
    rw [List.filter_eq_nil_iff]
    intro a ha
    simp [hnone a ha]
  rw [renderAlerts_of_present p old c hl hc]
  simp only [hfilter, List.length_nil, if_true, Completion.state, Completion.threw,
    Page.alertCards]
  exact ⟨by decide, rfl, rfl, trivial⟩

/-- C7 at a page that shows one card and whose only alert is no longer active. -/
theorem renderAlerts_no_active_shows_empty_state_witness :
    (staleAlertPage.alertsList = some [.card (Alerts.alertCard (sampleAlert 1 (some 2)))] ∧
      staleAlertPage.totalAlertas = some "1" ∧
      ∀ a ∈ staleAlertPage.alerts, a.activa = false) ∧
    ((Alerts.renderAlerts staleAlertPage).state.totalAlertas = some "0" ∧
    (Alerts.renderAlerts staleAlertPage).state.alertsList
      = some [.message "✅" "No hay alertas activas" "Todo funciona correctamente"] ∧
    (Alerts.renderAlerts staleAlertPage).state.alertCards = [] ∧
    (Alerts.renderAlerts staleAlertPage).threw = false) :=
  ⟨⟨rfl, rfl, by decide⟩,
    renderAlerts_no_active_shows_empty_state staleAlertPage _ "1" rfl rfl (by decide)⟩

/-! ## Chart window (C8) -/

/-- One call of `updateChart` on a chart of at most 10 points. -/
theorem updateChart_some (t : String × String) (c : Charts.Chart)
    (hsame : c.labels.length = c.data.length) (hn : c.labels.length ≤ 10) :
    Charts.updateChart t (some c)
      = some ⟨(c.labels ++ [t.1]).drop (c.labels.length + 1 - 10),
              (c.data ++ [t.2]).drop (c.labels.length + 1 - 10)⟩ := by
  unfold Charts.updateChart
  by_cases h : c.labels.length = 10
  · have h1 : (c.labels ++ [t.1]).length > 10 := by simp [h]
    simp only [h1, if_true, h]
    simp
  · have h1 : ¬ (c.labels ++ [t.1]).length > 10 := by simp; omega
    have h2 : c.labels.length + 1 - 10 = 0 := by omega
    simp only [h1, if_false, h2, List.drop_zero]

theorem updateCharts_some (ticks : List (String × String)) (c : Charts.Chart)
    (hsame : c.labels.length = c.data.length) (hn : c.labels.length ≤ 10) :
    Charts.updateCharts ticks (some c)
      = some ⟨(c.labels ++ ticks.map Prod.fst).drop (c.labels.length + ticks.length - 10),
              (c.data ++ ticks.map Prod.snd).drop (c.labels.length + ticks.length - 10)⟩ := by
  induction ticks generalizing c with
  | nil =>
    have h : c.labels.length - 10 = 0 := by omega
    cases c
    simp_all [Charts.updateCharts]
  | cons t rest ih =>
    have hstep : Charts.updateCharts (t :: rest) (some c)
        = Charts.updateCharts rest (Charts.updateChart t (some c)) := rfl
    rw [hstep, updateChart_some t c hsame hn]
    have hlab : ((c.labels ++ [t.1]).drop (c.labels.length + 1 - 10)).length
        = min 10 (c.labels.length + 1) := by
      simp only [List.length_drop, List.length_append, List.length_singleton]; omega
    have hdat : ((c.data ++ [t.2]).drop (c.labels.length + 1 - 10)).length
        = min 10 (c.labels.length + 1) := by
      simp only [List.length_drop, List.length_append, List.length_singleton]; omega
    rw [ih _ (by simp only [hlab, hdat]) (by simp only [hlab]; omega)]
    simp only [hlab]
    by_cases h : c.labels.length = 10
    · have hd : c.data.length = 10 := by omega
      have e1 : c.labels.length + 1 - 10 = 1 := by omega
      have e2 : min 10 (c.labels.length + 1) + rest.length - 10 = rest.length := by omega
      have e3 : c.labels.length + (t :: rest).length - 10 = rest.length + 1 := by
        simp only [List.length_cons]; omega
      rw [e1, e2, e3]
      have htail : ∀ (l r : List String) (x : String),
          (l ++ [x]).tail ++ r = (l ++ x :: r).drop 1 := by
        intro l r x
        cases l <;> simp
      simp only [List.map_cons, List.drop_one]
      rw [htail, htail, List.drop_drop, List.drop_drop]
      have e4 : 1 + rest.length = rest.length + 1 := by omega
      simp only [e4]
    · have e1 : c.labels.length + 1 - 10 = 0 := by omega
      have e2 : min 10 (c.labels.length + 1) + rest.length
          = c.labels.length + (t :: rest).length := by
        simp only [List.length_cons]; omega
      rw [e1, e2]
      simp

/-- C8: for a chart whose labels and data have the same length `n ≤ 10` and `k` calls of
`updateChart`, the chart is still there, its labels and data are, in order, the last
`min 10 (n + k)` entries of the initial entries followed by the `k` appended ones, so both
have length `min 10 (n + k)`, at most 10; and after 11 calls on the chart that
`Charts.init` creates both series are the last ten appended entries: none of the ten
initial points and not the first appended point. -/
theorem updateChart_keeps_last_ten (c : Charts.Chart) (ticks : List (String × String))
    (hsame : c.labels.length = c.data.length) (hn : c.labels.length ≤ 10) :
    (∃ r, Charts.updateCharts ticks (some c) = some r ∧
      r.labels = (c.labels ++ ticks.map Prod.fst).drop
        (c.labels.length + ticks.length - min 10 (c.labels.length + ticks.length)) ∧
      r.data = (c.data ++ ticks.map Prod.snd).drop
        (c.data.length + ticks.length - min 10 (c.data.length + ticks.length)) ∧
      r.labels.length = min 10 (c.labels.length + ticks.length) ∧
      r.data.length = min 10 (c.labels.length + ticks.length) ∧
      r.labels.length ≤ 10 ∧ r.data.length ≤ 10) ∧
    (∀ (format : Int → String) (now : Int) (draw : Nat → String) (old : Option Charts.Chart),
      ticks.length = 11 →
      Charts.updateCharts ticks (Charts.init true format now draw old)
        = some ⟨(ticks.map Prod.fst).drop 1, (ticks.map Prod.snd).drop 1⟩) := by
  constructor
  · have e1 : c.labels.length + ticks.length - min 10 (c.labels.length + ticks.length)
        = c.labels.length + ticks.length - 10 := by omega
    have e2 : c.data.length + ticks.length - min 10 (c.data.length + ticks.length)
        = c.labels.length + ticks.length - 10 := by omega
    have e3 : ((c.labels ++ ticks.map Prod.fst).drop (c.labels.length + ticks.length - 10)).length
        = min 10 (c.labels.length + ticks.length) := by
      simp only [List.length_drop, List.length_append, List.length_map]; omega
    have e4 : ((c.data ++ ticks.map Prod.snd).drop (c.labels.length + ticks.length - 10)).length
        = min 10 (c.labels.length + ticks.length) := by
      simp only [List.length_drop, List.length_append, List.length_map]; omega
    refine ⟨_, updateCharts_some ticks c hsame hn, ?_, ?_, e3, e4, ?_, ?_⟩
    · rw [e1]
    · rw [e2]
    · rw [e3]; omega
    · rw [e4]; omega
  · intro format now draw old hk
    have hinit : Charts.init true format now draw old
        = some ⟨Charts.generateTimeLabels format now, Charts.generateInitialData draw⟩ := rfl
    have hl : (Charts.generateTimeLabels format now).length = 10 := by
      simp [Charts.generateTimeLabels]
    have hd : (Charts.generateInitialData draw).length = 10 := by
      simp [Charts.generateInitialData]
    rw [hinit, updateCharts_some ticks _ (by simp only [hl, hd]) (by simp only [hl]; omega)]
    simp only [hl, hk]
    have e : (10 + 11 - 10 : Nat) = 10 + 1 := by omega
    rw [e]
    rfl

/-- C8 at a chart of ten points and eleven ticks. -/
theorem updateChart_keeps_last_ten_witness :
    (tenPointChart.labels.length = tenPointChart.data.length ∧
      tenPointChart.labels.length ≤ 10) ∧
    (∃ r, Charts.updateCharts elevenTicks (some tenPointChart) = some r ∧
      r.labels = (tenPointChart.labels ++ elevenTicks.map Prod.fst).drop
        (tenPointChart.labels.length + elevenTicks.length
          - min 10 (tenPointChart.labels.length + elevenTicks.length)) ∧
      r.data = (tenPointChart.data ++ elevenTicks.map Prod.snd).drop
        (tenPointChart.data.length + elevenTicks.length
          - min 10 (tenPointChart.data.length + elevenTicks.length)) ∧
      r.labels.length = min 10 (tenPointChart.labels.length + elevenTicks.length) ∧
      r.data.length = min 10 (tenPointChart.labels.length + elevenTicks.length) ∧
      r.labels.length ≤ 10 ∧ r.data.length ≤ 10) ∧
    Charts.updateCharts elevenTicks
        (Charts.init true (fun t => toString t) 0 (fun i => toString i) none)
      = some ⟨(elevenTicks.map Prod.fst).drop 1, (elevenTicks.map Prod.snd).drop 1⟩ ∧
    Charts.updateCharts elevenTicks (some tenPointChart)
      = some ⟨["10:10", "10:10", "10:10", "10:10", "10:10", "10:11", "10:11", "10:11", "10:11",
          "10:11"],
        ["21.5", "22.5", "23.5", "24.5", "25.5", "26.5", "27.5", "28.5", "29.5", "20.1"]⟩ :=
  ⟨⟨rfl, by decide⟩,
    (updateChart_keeps_last_ten tenPointChart elevenTicks rfl (by decide)).1,
    (updateChart_keeps_last_ten tenPointChart elevenTicks rfl (by decide)).2
      (fun t => toString t) 0 (fun i => toString i) none rfl,
    by decide⟩

/-! ## Device form (C9, C10) -/

theorem afterSave_requests {J : Type} (success : String)
    (refetch : FetchResult (Option (List Device))) (p1 : Page) (res : Except String J) :
    (App.afterSave success refetch (p1, res)).requests
      = p1.requests ++ (match res with
          | .ok _ => [⟨"GET", App.JAVA_API_BASE_URL, none, none⟩]
          | .error _ => []) := by
  cases res with
  | ok v =>
    simp only [App.afterSave, fetchDevices_requests]
    rfl
  | error m => simp [App.afterSave, Utils.showNotification]

theorem createDevice_fst {J : Type} (d : DeviceData) (result : FetchResult J) (p : Page) :
    (App.createDevice d result p).1
      = { p with requests := p.requests ++ [App.createRequest d] } := by
  unfold App.createDevice
  cases result with
  | rejected m => rfl
  | resolved r => dsimp only; split <;> rfl

theorem updateDevice_fst {J : Type} (id : Int) (d : DeviceData) (result : FetchResult J)
    (p : Page) :
    (App.updateDevice id d result p).1
      = { p with requests := p.requests ++ [App.updateRequest id d] } := by
  unfold App.updateDevice
  cases result with
  | rejected m => rfl
  | resolved r => dsimp only; split <;> rfl

/-- The requests that one submission of the device form issues: the save request, followed
by the re-fetch of the device list when the save succeeded. -/
theorem handleDeviceSubmit_issued {J : Type} (form : App.DeviceForm) (mutation : FetchResult J)
    (refetch : FetchResult (Option (List Device))) (p : Page) :
    issuedSince p (App.handleDeviceSubmit form mutation refetch p) = [saveRequest p form] ∨
    issuedSince p (App.handleDeviceSubmit form mutation refetch p)
      = [saveRequest p form, ⟨"GET", App.JAVA_API_BASE_URL, none, none⟩] := by
  unfold issuedSince App.handleDeviceSubmit saveRequest
  cases hdev : p.currentEditingDevice with
  | some device =>
    dsimp only
    rw [show App.updateDevice device.id (App.buildDeviceData form) mutation p
      = ((App.updateDevice device.id (App.buildDeviceData form) mutation p).1,
         (App.updateDevice device.id (App.buildDeviceData form) mutation p).2) from rfl,
      afterSave_requests, updateDevice_fst]
    cases (App.updateDevice device.id (App.buildDeviceData form) mutation p).2 <;> simp
  | none =>
    dsimp only
    rw [show App.createDevice (App.buildDeviceData form) mutation p
      = ((App.createDevice (App.buildDeviceData form) mutation p).1,
         (App.createDevice (App.buildDeviceData form) mutation p).2) from rfl,
      afterSave_requests, createDevice_fst]
    cases (App.createDevice (App.buildDeviceData form) mutation p).2 <;> simp

theorem isSave_saveRequest (p : Page) (form : App.DeviceForm) :
    isSave (saveRequest p form) = true := by
  unfold saveRequest
  cases p.currentEditingDevice <;> rfl

theorem handleDeviceSubmit_saves {J : Type} (form : App.DeviceForm) (mutation : FetchResult J)
    (refetch : FetchResult (Option (List Device))) (p : Page) :
    (issuedSince p (App.handleDeviceSubmit form mutation refetch p)).filter isSave
      = [saveRequest p form] := by
  have hget : isSave ⟨"GET", App.JAVA_API_BASE_URL, none, none⟩ = false := by decide
  rcases handleDeviceSubmit_issued form mutation refetch p with h | h
  · rw [h]; simp [isSave_saveRequest]
  · rw [h]; simp [isSave_saveRequest, hget]

theorem saveRequest_body (p : Page) (form : App.DeviceForm) :
    (saveRequest p form).body = some (App.buildDeviceData form) := by
  unfold saveRequest
  cases p.currentEditingDevice <;> rfl

/-- C9: `App.handleDeviceSubmit` applies no length check to the description.  For every
submission exactly one create or update request is issued; when the trimmed description is
not empty, however long it is, the payload of that request carries `descripcion` equal to
the whole trimmed text, and when the trimmed description is empty the payload has no
`descripcion` field. -/
theorem handleDeviceSubmit_sends_whole_description {J : Type} (form : App.DeviceForm)
    (mutation : FetchResult J) (refetch : FetchResult (Option (List Device))) (p : Page) :
    ∃ req data,
      (issuedSince p (App.handleDeviceSubmit form mutation refetch p)).filter isSave = [req] ∧
      req.body = some data ∧
      (trim form.deviceDescription ≠ "" →
        data.descripcion = some (trim form.deviceDescription)) ∧
      (trim form.deviceDescription = "" → data.descripcion = none) := by
  refine ⟨saveRequest p form, App.buildDeviceData form,
    handleDeviceSubmit_saves form mutation refetch p, saveRequest_body p form, ?_, ?_⟩
  · intro h
    simp [App.buildDeviceData, h]
  · intro h
    simp [App.buildDeviceData, h]

/-- C9 at a form whose trimmed description has 35 characters: the one request sent is the
POST that carries all 35 of them. -/
theorem handleDeviceSubmit_sends_whole_description_witness :
    15 < jsLength (trim blankNameForm.deviceDescription) ∧
    (issuedSince blankPage
        (App.handleDeviceSubmit blankNameForm
          (.resolved (okResponse ())) (.resolved (okResponse (some []))) blankPage)).filter isSave
      = [⟨"POST", "http://localhost:8080/api/dispositivos", some "application/json",
          some ⟨"", "ACTUADOR", "A", true, some "una descripcion muy larga de prueba"⟩⟩] ∧
    (∃ req data,
      (issuedSince blankPage
        (App.handleDeviceSubmit blankNameForm
          (.resolved (okResponse ())) (.resolved (okResponse (some []))) blankPage)).filter isSave
        = [req] ∧
      req.body = some data ∧
      (trim blankNameForm.deviceDescription ≠ "" →
        data.descripcion = some (trim blankNameForm.deviceDescription)) ∧
      (trim blankNameForm.deviceDescription = "" → data.descripcion = none)) :=
  ⟨by decide, by decide,
    handleDeviceSubmit_sends_whole_description blankNameForm
      (.resolved (okResponse ())) (.resolved (okResponse (some []))) blankPage⟩

/-- C10 as stated fails: a submission whose device name is only blanks (empty after trim),
with no device being edited, issues a POST whose payload has the empty name. -/
theorem handleDeviceSubmit_blank_name_is_sent :
    trim blankNameForm.deviceName = "" ∧
    (issuedSince blankPage
        (App.handleDeviceSubmit blankNameForm
          (.resolved (okResponse ())) (.resolved (okResponse (some []))) blankPage)).filter isSave
      ≠ [] ∧
    (App.handleDeviceSubmit blankNameForm
        (.resolved (okResponse ())) (.resolved (okResponse (some []))) blankPage).requests
      = [⟨"POST", "http://localhost:8080/api/dispositivos", some "application/json",
          some ⟨"", "ACTUADOR", "A", true, some "una descripcion muy larga de prueba"⟩⟩,
         ⟨"GET", "http://localhost:8080/api/dispositivos", none, none⟩] := by
  decide

/-- C10 amended: `App.handleDeviceSubmit` does not check the form fields before sending.
For every submission, the ones whose name is empty after trim included, exactly one save
request is issued: a PUT to the edited device when a device is being edited, a POST
otherwise, with a payload whose `nombre` is the trimmed name, whose `tipo` and `ubicacion`
are the field values as they are, and whose `activo` is true. -/
theorem handleDeviceSubmit_sends_without_validation {J : Type} (form : App.DeviceForm)
    (mutation : FetchResult J) (refetch : FetchResult (Option (List Device))) (p : Page) :
    ∃ req data,
      (issuedSince p (App.handleDeviceSubmit form mutation refetch p)).filter isSave = [req] ∧
      req.method = (if p.currentEditingDevice.isSome then "PUT" else "POST") ∧
      req.url = (match p.currentEditingDevice with
        | some device => App.JAVA_API_BASE_URL ++ "/" ++ toString device.id
        | none => App.JAVA_API_BASE_URL) ∧
      req.body = some data ∧
      data.nombre = trim form.deviceName ∧ data.tipo = form.deviceType ∧
      data.ubicacion = form.deviceLocation ∧ data.activo = true := by
  refine ⟨saveRequest p form, App.buildDeviceData form,
    handleDeviceSubmit_saves form mutation refetch p, ?_, ?_, saveRequest_body p form, ?_⟩
  · unfold saveRequest
    cases p.currentEditingDevice <;> rfl
  · unfold saveRequest
    cases p.currentEditingDevice <;> rfl
  · unfold App.buildDeviceData
    dsimp only
    split <;> exact ⟨rfl, rfl, rfl, rfl⟩

/-! ## Device mutations (C11) and failed device fetch (C12) -/

/-- C11 as stated fails: a 2xx response whose body does not parse as JSON (status 204, empty
body) makes `App.createDevice` and `App.updateDevice` throw the error of
`response.json()`, although the response is ok; `App.deleteDevice`, which does not read
the body, returns true for it. -/
theorem createDevice_throws_on_ok_without_json :
    (noContent : Response Unit).ok = true ∧
    (App.createDevice sampleData (.resolved (noContent : Response Unit)) blankPage).2
      = .error "Unexpected end of JSON input" ∧
    (App.updateDevice 1 sampleData (.resolved (noContent : Response Unit)) blankPage).2
      = .error "Unexpected end of JSON input" ∧
    (App.deleteDevice 1 (.resolved (noContent : Response Unit)) blankPage).2 = .ok true := by
  refine ⟨by decide, rfl, rfl, rfl⟩

/-- C11 amended: for every HTTP response to a device mutation, `App.createDevice`,
`App.updateDevice` and `App.deleteDevice` throw an error with the message
'Error <status>: <response body text>' when the response is not 2xx; on a 2xx response
`deleteDevice` returns true, and `createDevice` and `updateDevice` give what
`response.json()` gives: the parsed body when the body parses as JSON, the error of the
parser when it does not.  So `deleteDevice` throws exactly when the response is not 2xx,
and `createDevice` and `updateDevice` exactly when it is not 2xx or its body is not JSON. -/
theorem device_mutation_results {J : Type} (deviceData : DeviceData) (deviceId : Int)
    (r : Response J) (p : Page) :
    (App.createDevice deviceData (.resolved r) p).2
      = (if r.ok then r.json
         else .error ("Error " ++ toString r.status ++ ": " ++ r.text)) ∧
    (App.updateDevice deviceId deviceData (.resolved r) p).2
      = (if r.ok then r.json
         else .error ("Error " ++ toString r.status ++ ": " ++ r.text)) ∧
    (App.deleteDevice deviceId (.resolved r) p).2
      = (if r.ok then .ok true
         else .error ("Error " ++ toString r.status ++ ": " ++ r.text)) ∧
    (r.ok = true ↔ 200 ≤ r.status ∧ r.status ≤ 299) ∧
    ((∃ message, (App.deleteDevice deviceId (.resolved r) p).2 = .error message)
      ↔ r.ok = false) ∧
    ((∃ message, (App.createDevice deviceData (.resolved r) p).2 = .error message)
      ↔ (r.ok = false ∨ ∃ message, r.json = .error message)) ∧
    ((∃ message, (App.updateDevice deviceId deviceData (.resolved r) p).2 = .error message)
      ↔ (r.ok = false ∨ ∃ message, r.json = .error message)) := by
  have hc : (App.createDevice deviceData (.resolved r) p).2
      = (if r.ok then r.json
         else .error ("Error " ++ toString r.status ++ ": " ++ r.text)) := by
    unfold App.createDevice App.statusError
    cases h : r.ok <;> simp [h]
  have hu : (App.updateDevice deviceId deviceData (.resolved r) p).2
      = (if r.ok then r.json
         else .error ("Error " ++ toString r.status ++ ": " ++ r.text)) := by
    unfold App.updateDevice App.statusError
    cases h : r.ok <;> simp [h]
  have hd : (App.deleteDevice deviceId (.resolved r) p).2
      = (if r.ok then .ok true
         else .error ("Error " ++ toString r.status ++ ": " ++ r.text)) := by
    unfold App.deleteDevice App.statusError
    cases h : r.ok <;> simp [h]
  refine ⟨hc, hu, hd, ?_, ?_, ?_, ?_⟩
  · simp [Response.ok]
  · rw [hd]
    cases h : r.ok <;> simp
  · rw [hc]
    cases h : r.ok <;> simp
  · rw [hu]
    cases h : r.ok <;> simp

/-- The `catch` block of `fetchDevicesFromAPI`: the toast, the emptied list and, when
`#devicesList` exists, the empty-state block; it does not throw. -/
theorem fetchDevicesFailed_result (message : String) (p : Page) :
    (Devices.fetchDevicesFailed message p).state.notifications
      = p.notifications ++ [⟨"Error al cargar dispositivos: " ++ message, "error"⟩] ∧
    (Devices.fetchDevicesFailed message p).state.devices = [] ∧
    (Devices.fetchDevicesFailed message p).threw = false ∧
    (∀ old, p.devicesList = some old →
      (Devices.fetchDevicesFailed message p).state.devicesList
        = some [Devices.emptyMessage]) := by
  unfold Devices.fetchDevicesFailed Devices.renderDevices Devices.showError
    Utils.showNotification
  cases hl : p.devicesList with
  | none => simp [Completion.state, Completion.threw]
  | some old => simp [Completion.state, Completion.threw]

/-- C12: for every device fetch that fails, because the request rejects or because the
server answers with a status that is not 2xx, `Devices.fetchDevicesFromAPI` shows the toast
'Error al cargar dispositivos: <message of the error>' of type error (the message is
'Error en la respuesta del servidor' for a non-2xx answer), replaces `Devices.devices` by
the empty list whatever it held before, does not throw, and, on a page with
`#devicesList`, leaves there the empty-state block alone. -/
theorem fetchDevices_failure_shows_error (p : Page) :
    (∀ message : String,
      (Devices.fetchDevicesFromAPI (.rejected message) p).state.notifications
        = p.notifications ++ [⟨"Error al cargar dispositivos: " ++ message, "error"⟩] ∧
      (Devices.fetchDevicesFromAPI (.rejected message) p).state.devices = [] ∧
      (Devices.fetchDevicesFromAPI (.rejected message) p).threw = false ∧
      (∀ old, p.devicesList = some old →
        (Devices.fetchDevicesFromAPI (.rejected message) p).state.devicesList
          = some [.message "🔌" "No hay dispositivos registrados"
              "Agregar primer dispositivo"])) ∧
    (∀ r : Response (Option (List Device)), r.ok = false →
      (Devices.fetchDevicesFromAPI (.resolved r) p).state.notifications
        = p.notifications ++
          [⟨"Error al cargar dispositivos: Error en la respuesta del servidor", "error"⟩] ∧
      (Devices.fetchDevicesFromAPI (.resolved r) p).state.devices = [] ∧
      (Devices.fetchDevicesFromAPI (.resolved r) p).threw = false ∧
      (∀ old, p.devicesList = some old →
        (Devices.fetchDevicesFromAPI (.resolved r) p).state.devicesList
          = some [.message "🔌" "No hay dispositivos registrados"
              "Agregar primer dispositivo"])) := by
  constructor
  · intro message
    have h : Devices.fetchDevicesFromAPI (.rejected message) p
        = Devices.fetchDevicesFailed message (p.get App.JAVA_API_BASE_URL) := rfl
    rw [h]
    exact fetchDevicesFailed_result message (p.get App.JAVA_API_BASE_URL)
  · intro r hok
    have h : Devices.fetchDevicesFromAPI (.resolved r) p
        = Devices.fetchDevicesFailed "Error en la respuesta del servidor"
            (p.get App.JAVA_API_BASE_URL) := by
      unfold Devices.fetchDevicesFromAPI
      dsimp only
      rw [hok]
      rfl
    rw [h]
    exact fetchDevicesFailed_result "Error en la respuesta del servidor"
      (p.get App.JAVA_API_BASE_URL)

/-- C12 at the page that shows two active devices: a rejected request and an answer of
status 500 both leave one error toast, no device and the empty-state block. -/
theorem fetchDevices_failure_shows_error_witness :
    ((serverError : Response (Option (List Device))).ok = false ∧
      twoDevicePage.devicesList
        = some (twoDevices.map (fun d => DevicesNode.card (Devices.deviceCard d)))) ∧
    ((Devices.fetchDevicesFromAPI (.resolved serverError) twoDevicePage).state.notifications
        = twoDevicePage.notifications ++
          [⟨"Error al cargar dispositivos: Error en la respuesta del servidor", "error"⟩] ∧
      (Devices.fetchDevicesFromAPI (.resolved serverError) twoDevicePage).state.devices = [] ∧
      (Devices.fetchDevicesFromAPI (.resolved serverError) twoDevicePage).threw = false ∧
      (Devices.fetchDevicesFromAPI (.resolved serverError) twoDevicePage).state.devicesList
        = some [.message "🔌" "No hay dispositivos registrados" "Agregar primer dispositivo"]) ∧
    (Devices.fetchDevicesFromAPI (.rejected "Failed to fetch") twoDevicePage).state.notifications
      = [⟨"Error al cargar dispositivos: Failed to fetch", "error"⟩] ∧
    (Devices.fetchDevicesFromAPI (.rejected "Failed to fetch") twoDevicePage).state.devicesList
      = some [.message "🔌" "No hay dispositivos registrados" "Agregar primer dispositivo"] :=
  ⟨⟨rfl, rfl⟩,
    ⟨((fetchDevices_failure_shows_error twoDevicePage).2 serverError rfl).1,
     ((fetchDevices_failure_shows_error twoDevicePage).2 serverError rfl).2.1,
     ((fetchDevices_failure_shows_error twoDevicePage).2 serverError rfl).2.2.1,
     ((fetchDevices_failure_shows_error twoDevicePage).2 serverError rfl).2.2.2 _ rfl⟩,
    by decide, by decide⟩

/-! ## Dashboard statistics (C13) -/

/-- The accumulators after the loop over the zones: the two sums and the two counts are
those of the temperature entries and of the humidity entries, each on its own. -/
theorem foldl_addZone {N : Type} (ops : NumberOps N) (zonas : List (Zone N))
    (t : App.Totals N) :
    zonas.foldl (App.addZone ops) t
      = ⟨(temperatures zonas).foldl ops.add t.totalTemp,
         (humidities zonas).foldl ops.add t.totalHumidity,
         t.tempCount + (temperatures zonas).length,
         t.humidityCount + (humidities zonas).length⟩ := by
  induction zonas generalizing t with
  | nil => rfl
  | cons zona rest ih =>
    rw [List.foldl_cons, ih]
    rcases zona with ⟨_ | ⟨_ | x, _ | y⟩⟩ <;>
      simp [App.addZone, temperatures, humidities, Nat.add_assoc, Nat.add_comm 1]

/-- C13: on a page with `#tempPromedio` and `#humedadPromedio`, for every list of zone
records `App.updateDashboardStats` shows as temperature the mean of `temperatura.promedio`
over exactly the zones that carry a `temperatura` entry (their sum divided by their
number, printed with `toFixed(1)` and followed by '°C'), and '--°C' when no zone carries
one; the humidity is the mean over the zones that carry a `humedad` entry, followed by
'%', and '--%' when there is none; neither depends on the entries of the other kind.  The numbers and their operations are
a parameter; with exact rational arithmetic the mean is the sum over the number of
entries. -/
theorem updateDashboardStats_shows_means {N : Type} (ops : NumberOps N)
    (zonas : List (Zone N)) (panel : StatsPanel) (t h : String)
    (ht : panel.tempPromedio = some t) (hh : panel.humedadPromedio = some h) :
    App.updateDashboardStats ops (some zonas) panel = .normal
      { tempPromedio := some
          ((if (temperatures zonas).length = 0 then "--"
            else ops.toFixed1 (mean ops (temperatures zonas))) ++ "°C"),
        humedadPromedio := some
          ((if (humidities zonas).length = 0 then "--"
            else ops.toFixed1 (mean ops (humidities zonas))) ++ "%") } ∧
    (∀ (print : ℚ → String) (values : List ℚ),
      mean (exactOps print) values = values.sum / (values.length : ℚ)) := by
  constructor
  · unfold App.updateDashboardStats
    simp only [foldl_addZone, ht, hh, Nat.zero_add, mean]
    by_cases h1 : (temperatures zonas).length = 0 <;>
      by_cases h2 : (humidities zonas).length = 0 <;>
      simp [h1, h2, Nat.pos_iff_ne_zero]
  · intro print values
    have hsum : ∀ (l : List ℚ) (x : ℚ), l.foldl (fun x y => x + y) x = x + l.sum := by
      intro l
      induction l with
      | nil => intro x; simp
      | cons y l ih => intro x; rw [List.foldl_cons, ih, List.sum_cons, add_assoc]
    simp only [mean, exactOps, hsum, zero_add]

/-- C13 at three zones (temperature 20.0 and humidity 60.0; temperature 25.0 only; no
statistics), with numbers counted in tenths: the panel shows 22.5°C and 60.0%; and with no
entry at all it shows '--°C' and '--%'. -/
theorem updateDashboardStats_shows_means_witness :
    (blankPanel.tempPromedio = some "--°C" ∧ blankPanel.humedadPromedio = some "--%") ∧
    App.updateDashboardStats tenths (some threeZones) blankPanel = .normal
      { tempPromedio := some
          ((if (temperatures threeZones).length = 0 then "--"
            else tenths.toFixed1 (mean tenths (temperatures threeZones))) ++ "°C"),
        humedadPromedio := some
          ((if (humidities threeZones).length = 0 then "--"
            else tenths.toFixed1 (mean tenths (humidities threeZones))) ++ "%") } ∧
    (∀ (print : ℚ → String) (values : List ℚ),
      mean (exactOps print) values = values.sum / (values.length : ℚ)) ∧
    App.updateDashboardStats tenths (some threeZones) blankPanel
      = .normal { tempPromedio := some "22.5°C", humedadPromedio := some "60.0%" } ∧
    App.updateDashboardStats tenths (some [⟨none⟩]) filledPanel
      = .normal { tempPromedio := some "--°C", humedadPromedio := some "--%" } :=
  ⟨⟨rfl, rfl⟩,
    (updateDashboardStats_shows_means tenths threeZones blankPanel "--°C" "--%" rfl rfl).1,
    (updateDashboardStats_shows_means tenths threeZones blankPanel "--°C" "--%" rfl rfl).2,
    by decide, by decide⟩

/-! ## Stable order of the alert cards (C14) -/

/-- The sort keeps the alerts of one severity in the order they had. -/
theorem arraySort_compareAlerts_stable (l : List Alert) (v : Int) :
    (arraySort Alerts.compareAlerts l).filter (fun a => decide (Alerts.severity a = v))
      = l.filter (fun a => decide (Alerts.severity a = v)) := by
  have hsub : List.Sublist (l.filter (fun a => decide (Alerts.severity a = v))) l :=
    List.filter_sublist l
  have hpw : (l.filter (fun a => decide (Alerts.severity a = v))).Pairwise
      (fun a b => Alerts.compareAlerts a b ≤ 0) := by
    rw [List.pairwise_iff_forall_sublist]
    intro a b hab
    have ha : a ∈ l.filter (fun a => decide (Alerts.severity a = v)) := hab.subset (by simp)
    have hb : b ∈ l.filter (fun a => decide (Alerts.severity a = v)) := hab.subset (by simp)
    simp only [List.mem_filter, decide_eq_true_eq] at ha hb
    rw [compareAlerts_nonpos_iff, ha.2, hb.2]
  have hin : List.Sublist (l.filter (fun a => decide (Alerts.severity a = v)))
      (arraySort Alerts.compareAlerts l) := List.sublist_insertionSort hpw hsub
  have hfil := hin.filter (fun a => decide (Alerts.severity a = v))
  rw [List.filter_filter] at hfil
  simp only [Bool.and_self] at hfil
  have hperm : List.Perm
      ((arraySort Alerts.compareAlerts l).filter (fun a => decide (Alerts.severity a = v)))
      (l.filter (fun a => decide (Alerts.severity a = v))) :=
    (List.perm_insertionSort _ l).filter _
  exact (hfil.eq_of_length hperm.length_eq.symm).symm

/-- C14: `renderAlerts` orders the active alerts by the severity `nivel_criticidad || 1`,
which is 1 for a missing level and for the level 0 and the level itself otherwise.  For
every alert list the alerts whose cards are shown are the first 10 of a rearrangement of
the active alerts that is in order of non-increasing severity and keeps, for every
severity, the alerts of that severity in the order they had in `Alerts.alerts`; on a page
with `#alertsList` and `#totalAlertas` the cards shown are the cards of these alerts, in
this order. -/
theorem renderAlerts_sorts_stably (p : Page) :
    (∀ a : Alert, a.nivel_criticidad = none ∨ a.nivel_criticidad = some 0 →
      Alerts.severity a = 1) ∧
    (∀ (a : Alert) (n : Int), a.nivel_criticidad = some n → n ≠ 0 → Alerts.severity a = n) ∧
    ∃ sorted : List Alert,
      sorted.Perm (p.alerts.filter (fun a => a.activa)) ∧
      sorted.Pairwise (fun a b => Alerts.severity b ≤ Alerts.severity a) ∧
      (∀ v : Int, sorted.filter (fun a => decide (Alerts.severity a = v))
        = (p.alerts.filter (fun a => a.activa)).filter
            (fun a => decide (Alerts.severity a = v))) ∧
      Alerts.shownAlerts p.alerts = sorted.take 10 ∧
      (∀ old c, p.alertsList = some old → p.totalAlertas = some c →
        (Alerts.renderAlerts p).state.alertCards = (sorted.take 10).map Alerts.alertCard) := by
  refine ⟨?_, ?_, arraySort Alerts.compareAlerts (p.alerts.filter (fun a => a.activa)),
    List.perm_insertionSort _ _, arraySort_compareAlerts_pairwise _,
    fun v => arraySort_compareAlerts_stable _ v, rfl,
    fun old c hl hc => renderAlerts_alertCards p old c hl hc⟩
  · intro a h
    rcases h with h | h <;> simp [Alerts.severity, h]
  · intro a n h hn
    simp [Alerts.severity, h, hn]

/-- C14 at a page with twelve active alerts of levels 1, 2, 3, 1, 2, 3, ... and one
inactive alert: the ten cards shown are those of the four alerts of level 3, the four of
level 2 and the first two of level 1, each group in the order of the list. -/
theorem renderAlerts_sorts_stably_witness :
    (thirteenAlertPage.alertsList = some [] ∧ thirteenAlertPage.totalAlertas = some "--") ∧
    ((∀ a : Alert, a.nivel_criticidad = none ∨ a.nivel_criticidad = some 0 →
      Alerts.severity a = 1) ∧
    (∀ (a : Alert) (n : Int), a.nivel_criticidad = some n → n ≠ 0 → Alerts.severity a = n) ∧
    ∃ sorted : List Alert,
      sorted.Perm (thirteenAlertPage.alerts.filter (fun a => a.activa)) ∧
      sorted.Pairwise (fun a b => Alerts.severity b ≤ Alerts.severity a) ∧
      (∀ v : Int, sorted.filter (fun a => decide (Alerts.severity a = v))
        = (thirteenAlertPage.alerts.filter (fun a => a.activa)).filter
            (fun a => decide (Alerts.severity a = v))) ∧
      Alerts.shownAlerts thirteenAlertPage.alerts = sorted.take 10 ∧
      (∀ old c, thirteenAlertPage.alertsList = some old →
        thirteenAlertPage.totalAlertas = some c →
        (Alerts.renderAlerts thirteenAlertPage).state.alertCards
          = (sorted.take 10).map Alerts.alertCard)) ∧
    (Alerts.shownAlerts thirteenAlertPage.alerts).map (fun a => (a.id, Alerts.severity a))
      = [(2, 3), (5, 3), (8, 3), (11, 3), (1, 2), (4, 2), (7, 2), (10, 2), (0, 1), (3, 1)] ∧
    (Alerts.shownAlerts zeroLevelPage.alerts).map (fun a => (a.id, Alerts.severity a))
      = [(1, 1), (2, 1)] :=
  ⟨⟨rfl, rfl⟩, renderAlerts_sorts_stably thirteenAlertPage, by decide, by decide⟩

end SIMCII
